import Mathlib

/-!
Verification of the NC lottery scratch-off analysis engine
(`nc_lottery_million_monitor.py`).

The engine is a pure function of a snapshot of prize-tier inventory
counts.  We embed the data model (`PrizeTier`, `GameData`), the derived
metrics (percent remaining, differential, million health, loss
minimization, bottom depletion), the composite scorer, the
HOT/WATCH/AVOID categorizer, and the ranking step, all over exact
rational arithmetic.  Date parsing in `days_since_launch` depends on the
wall clock, so it is abstracted by a parameter mapping the raw
`start_date` string to an optional day count.
-/

namespace NCLottery

/-- A single prize tier: prize `value`, original print count `total`,
and unclaimed count `remaining`.  Mirrors the `PrizeTier` dataclass. -/
structure PrizeTier where
  value : ℚ
  total : ℕ
  remaining : ℕ
deriving DecidableEq, Repr

namespace PrizeTier

/-- Percent of the tier still unclaimed; `0` when `total = 0`
(`PrizeTier.percent_remaining` in the source, division guarded). -/
def percent_remaining (t : PrizeTier) : ℚ :=
  if t.total = 0 then 0 else ((t.remaining : ℚ) / (t.total : ℚ)) * 100

/-- Tier is worth one million dollars or more (`is_million_plus`). -/
def is_million_plus (t : PrizeTier) : Bool :=
  decide ((1000000 : ℚ) ≤ t.value)

/-- Break-even tier: value between 2x and 10x the ticket price
(`is_break_even_tier`). -/
def is_break_even_tier (t : PrizeTier) (ticket_price : ℚ) : Bool :=
  decide (ticket_price * 2 ≤ t.value ∧ t.value ≤ ticket_price * 10)

/-- Small-win tier: value between 500 and 1000 (`is_small_win_tier`). -/
def is_small_win_tier (t : PrizeTier) : Bool :=
  decide ((500 : ℚ) ≤ t.value ∧ t.value ≤ 1000)

/-- Medium-win tier: value between 2000 and 10000 (`is_medium_win_tier`). -/
def is_medium_win_tier (t : PrizeTier) : Bool :=
  decide ((2000 : ℚ) ≤ t.value ∧ t.value ≤ 10000)

end PrizeTier

/-- A scratch-off game: identifying metadata, ticket price, optional
launch date string, and its ordered list of prize tiers.  Mirrors the
`GameData` dataclass. -/
structure GameData where
  game_number : String
  game_name : String
  ticket_price : ℚ
  url : String
  start_date : Option String := none
  status : String := ""
  prize_tiers : List PrizeTier := []
deriving DecidableEq, Repr

namespace GameData

/-- The tier with maximum `value`, ties broken by the first one in
collection order, `none` on an empty collection.  Mirrors
`get_top_prize`, i.e. Python `max(self.prize_tiers, key=value)`, which
keeps the current candidate and replaces it only on a strictly greater
key. -/
def get_top_prize (g : GameData) : Option PrizeTier :=
  match g.prize_tiers with
  | [] => none
  | t :: ts => some (ts.foldl (fun best x => if best.value < x.value then x else best) t)

/-- The tier with minimum `value`, ties broken by the first one in
collection order, `none` on an empty collection.  Mirrors
`get_bottom_prize`, i.e. Python `min` with a strict-less replacement. -/
def get_bottom_prize (g : GameData) : Option PrizeTier :=
  match g.prize_tiers with
  | [] => none
  | t :: ts => some (ts.foldl (fun best x => if x.value < best.value then x else best) t)

/-- All tiers valued at one million or more (`get_million_plus_tiers`). -/
def get_million_plus_tiers (g : GameData) : List PrizeTier :=
  g.prize_tiers.filter (fun t => t.is_million_plus)

/-- All tiers in the break-even range for this game's ticket price
(`get_break_even_tiers`). -/
def get_break_even_tiers (g : GameData) : List PrizeTier :=
  g.prize_tiers.filter (fun t => t.is_break_even_tier g.ticket_price)

/-- All tiers in the 500 to 1000 range (`get_small_win_tiers`). -/
def get_small_win_tiers (g : GameData) : List PrizeTier :=
  g.prize_tiers.filter (fun t => t.is_small_win_tier)

/-- All tiers in the 2000 to 10000 range (`get_medium_win_tiers`). -/
def get_medium_win_tiers (g : GameData) : List PrizeTier :=
  g.prize_tiers.filter (fun t => t.is_medium_win_tier)

/-- Top prize percent remaining minus bottom prize percent remaining,
`0` when either prize is absent (`calculate_differential`). -/
def calculate_differential (g : GameData) : ℚ :=
  match g.get_top_prize, g.get_bottom_prize with
  | some top, some bottom => top.percent_remaining - bottom.percent_remaining
  | _, _ => 0

/-- Summed `(remaining, total, percent)` across the million-plus tiers;
`(0, 0, 0)` when there are none, percent `0` when the summed total is
`0` (`calculate_million_health`). -/
def calculate_million_health (g : GameData) : ℕ × ℕ × ℚ :=
  let million_tiers := g.get_million_plus_tiers
  if million_tiers.isEmpty then (0, 0, 0)
  else
    let total : ℕ := (million_tiers.map (fun t => t.total)).sum
    let remaining : ℕ := (million_tiers.map (fun t => t.remaining)).sum
    let pct : ℚ := if 0 < total then (remaining : ℚ) / (total : ℚ) * 100 else 0
    (remaining, total, pct)

/-- Weighted loss-minimization score: break-even group percent times
0.50, small-win group percent times 0.30, medium-win group percent
times 0.20; each group percent is the summed remaining over the summed
total (times 100), defaulting to `0` on an empty group or a zero summed
total (`calculate_loss_minimization_score`). -/
def calculate_loss_minimization_score (g : GameData) : ℚ :=
  let break_even := g.get_break_even_tiers
  let be_pct : ℚ :=
    if break_even.isEmpty then 0
    else
      let be_total : ℕ := (break_even.map (fun t => t.total)).sum
      let be_remaining : ℕ := (break_even.map (fun t => t.remaining)).sum
      if 0 < be_total then (be_remaining : ℚ) / (be_total : ℚ) * 100 else 0
  let small_wins := g.get_small_win_tiers
  let sw_pct : ℚ :=
    if small_wins.isEmpty then 0
    else
      let sw_total : ℕ := (small_wins.map (fun t => t.total)).sum
      let sw_remaining : ℕ := (small_wins.map (fun t => t.remaining)).sum
      if 0 < sw_total then (sw_remaining : ℚ) / (sw_total : ℚ) * 100 else 0
  let medium_wins := g.get_medium_win_tiers
  let mw_pct : ℚ :=
    if medium_wins.isEmpty then 0
    else
      let mw_total : ℕ := (medium_wins.map (fun t => t.total)).sum
      let mw_remaining : ℕ := (medium_wins.map (fun t => t.remaining)).sum
      if 0 < mw_total then (mw_remaining : ℚ) / (mw_total : ℚ) * 100 else 0
  be_pct * (50 / 100) + sw_pct * (30 / 100) + mw_pct * (20 / 100)

/-- Percent of the bottom tier remaining, `0` when there is no bottom
tier (`calculate_bottom_depletion`). -/
def calculate_bottom_depletion (g : GameData) : ℚ :=
  match g.get_bottom_prize with
  | none => 0
  | some bottom => bottom.percent_remaining

/-- Whether the game has at least one million-plus tier
(`has_million_plus`). -/
def has_million_plus (g : GameData) : Bool :=
  0 < g.get_million_plus_tiers.length

/-- Days since the game launched (`days_since_launch`).  The source
parses `start_date` against several date formats and subtracts from the
current wall-clock time; that environment-dependent step is abstracted
as `parseDays`, which returns `some` whole-day count on a successful
parse and `none` when no format matches.  An absent `start_date`
short-circuits to `none` exactly as in the source. -/
def days_since_launch (g : GameData) (parseDays : String → Option ℤ) : Option ℤ :=
  match g.start_date with
  | none => none
  | some s => parseDays s

end GameData

/-- Composite ranking score (`calculate_composite_score`): million
health percent times 0.40, loss-minimization score times 0.30, the
differential affinely renormalized onto a 0 to 100 scale and clamped
times 0.20, and a freshness step function of the game's age times
0.10. -/
def calculate_composite_score (g : GameData) (parseDays : String → Option ℤ) : ℚ :=
  let million_pct := g.calculate_million_health.2.2
  let loss_min_score := g.calculate_loss_minimization_score
  let diff := g.calculate_differential
  let diff_normalized : ℚ := max 0 (min 100 ((diff + 30) * (100 / 60)))
  let freshness : ℚ :=
    match g.days_since_launch parseDays with
    | some days =>
      if days < 30 then 100
      else if days < 90 then 75
      else if days < 180 then 50
      else 25
    | none => 50
  million_pct * (40 / 100) + loss_min_score * (30 / 100) +
    diff_normalized * (20 / 100) + freshness * (10 / 100)

/-- Discrete HOT/WATCH/AVOID label (`categorize_game`), an ordered list
of threshold rules where the first match wins. -/
def categorize_game (g : GameData) : String :=
  let million_pct := g.calculate_million_health.2.2
  let bottom_pct := g.calculate_bottom_depletion
  let diff := g.calculate_differential
  if 70 ≤ million_pct ∧ 0 < diff then "HOT"
  else if bottom_pct + 10 < million_pct then "HOT"
  else if million_pct < 30 then "AVOID"
  else if million_pct < bottom_pct - 15 then "AVOID"
  else "WATCH"

/-! ### Ranking step

`generate_html_report` pairs each game with its composite score and
category, sorts the triples by score descending with Python's stable
`list.sort(key, reverse=True)`, and then filters the sorted list into
the three per-category sub-collections.  A stable descending sort is
modelled by `List.mergeSort` with the comparison `score y ≤ score x`. -/

/-- Each game paired with its composite score and category, in input
order (the `scored_games` comprehension in `generate_html_report`). -/
def scored_games (games : List GameData) (parseDays : String → Option ℤ) :
    List (GameData × ℚ × String) :=
  games.map (fun g => (g, calculate_composite_score g parseDays, categorize_game g))

/-- Comparison used by the ranking sort: descending by composite
score. -/
def score_ge (x y : GameData × ℚ × String) : Bool :=
  decide (y.2.1 ≤ x.2.1)

/-- The scored triples sorted by composite score descending, ties kept
in input order (the stable `sort(..., reverse=True)` call). -/
def rank_games (games : List GameData) (parseDays : String → Option ℤ) :
    List (GameData × ℚ × String) :=
  (scored_games games parseDays).mergeSort score_ge

/-- The HOT sub-collection of the ranked list (`hot_games`). -/
def hot_games (games : List GameData) (parseDays : String → Option ℤ) :
    List (GameData × ℚ) :=
  ((rank_games games parseDays).filter (fun x => x.2.2 == "HOT")).map (fun x => (x.1, x.2.1))

/-- The WATCH sub-collection of the ranked list (`watch_games`). -/
def watch_games (games : List GameData) (parseDays : String → Option ℤ) :
    List (GameData × ℚ) :=
  ((rank_games games parseDays).filter (fun x => x.2.2 == "WATCH")).map (fun x => (x.1, x.2.1))

/-- The AVOID sub-collection of the ranked list (`avoid_games`). -/
def avoid_games (games : List GameData) (parseDays : String → Option ℤ) :
    List (GameData × ℚ) :=
  ((rank_games games parseDays).filter (fun x => x.2.2 == "AVOID")).map (fun x => (x.1, x.2.1))

/-! ### Spec-side reference definitions

These restate, in the spec's own vocabulary, the quantities the claims
compare the code against. -/

/-- The differential renormalized as the spec words it: the affine map
`(differential + 30) * (100/60)` clamped to the interval 0 to 100. -/
def spec_diff_norm (g : GameData) : ℚ :=
  min 100 (max 0 ((g.calculate_differential + 30) * (100 / 60)))

/-- The freshness step function as the spec words it: under 30 days
gives 100, under 90 gives 75, under 180 gives 50, 180 or more gives 25,
absent gives 50. -/
def spec_freshness (days : Option ℤ) : ℚ :=
  match days with
  | some d => if d < 30 then 100 else if d < 90 then 75 else if d < 180 then 50 else 25
  | none => 50

/-- Group percent-remaining as the spec words it: summed remaining over
summed total, times 100, defaulting to 0 when the group is empty or its
summed total is 0. -/
def spec_group_pct (ts : List PrizeTier) : ℚ :=
  if (ts.map (fun t => t.total)).sum = 0 then 0
  else (((ts.map (fun t => t.remaining)).sum : ℕ) : ℚ) /
    (((ts.map (fun t => t.total)).sum : ℕ) : ℚ) * 100

/-! ### Concrete example games used by the claims' test vectors -/

/-- Empty game: no tiers, no start date. -/
def emptyGame : GameData :=
  { game_number := "0000", game_name := "Empty", ticket_price := 5, url := "u" }

/-- The differential test vector: tiers one dollar (10 of 10 left) and
one million dollars (1 of 5 left). -/
def diffGame : GameData :=
  { game_number := "0001", game_name := "Diff", ticket_price := 5, url := "u",
    prize_tiers := [⟨1, 10, 10⟩, ⟨1000000, 5, 1⟩] }

/-- The loss-minimization test vector: ticket price 5, a break-even
tier at 80 of 100, a small-win tier at 40 of 100, a medium-win tier at
10 of 50. -/
def lossGame : GameData :=
  { game_number := "0002", game_name := "Loss", ticket_price := 5, url := "u",
    prize_tiers := [⟨20, 100, 80⟩, ⟨500, 100, 40⟩, ⟨2000, 50, 10⟩] }

/-- The categorization precedence test vector: million percent 75,
differential -5, bottom depletion 50.  The one-dollar tier is the
bottom prize at 50 percent; the two million-plus tiers sum to 75 of 100
while the two-million tier alone (the top prize) sits at 45 percent. -/
def catGame : GameData :=
  { game_number := "0003", game_name := "Cat", ticket_price := 5, url := "u",
    prize_tiers := [⟨1, 100, 50⟩, ⟨1000000, 80, 66⟩, ⟨2000000, 20, 9⟩] }

/-- A tie-break test vector for top/bottom selection: two tiers share
the maximal value and two share the minimal value. -/
def tieGame : GameData :=
  { game_number := "0004", game_name := "Tie", ticket_price := 5, url := "u",
    prize_tiers := [⟨7, 3, 1⟩, ⟨9, 4, 2⟩, ⟨9, 5, 5⟩, ⟨7, 6, 6⟩] }

/-- An environment in which no date string parses. -/
def noParse : String → Option ℤ := fun _ => none

/-- A second empty game, distinct from `emptyGame` but with the same
(neutral) composite score, used to exercise tie-breaking. -/
def emptyGame2 : GameData :=
  { game_number := "0005", game_name := "Empty Two", ticket_price := 10, url := "v" }

/-- A two-game collection whose entries tie on composite score. -/
def rankPair : List GameData := [emptyGame, emptyGame2]

/-! ### Helper lemmas -/

/-- On a game with no tiers the top-prize accessor returns `none`. -/
theorem get_top_prize_nil (g : GameData) (h : g.prize_tiers = []) :
    g.get_top_prize = none := by
  unfold GameData.get_top_prize
  rw [h]

/-- On a game with no tiers the bottom-prize accessor returns `none`. -/
theorem get_bottom_prize_nil (g : GameData) (h : g.prize_tiers = []) :
    g.get_bottom_prize = none := by
  unfold GameData.get_bottom_prize
  rw [h]

/-- On a game with no tiers the million-health triple is all zero. -/
theorem million_health_nil (g : GameData) (h : g.prize_tiers = []) :
    g.calculate_million_health = (0, 0, 0) := by
  unfold GameData.calculate_million_health GameData.get_million_plus_tiers
  rw [h]
  simp

/-- On a game with no tiers the loss-minimization score is zero. -/
theorem loss_min_nil (g : GameData) (h : g.prize_tiers = []) :
    g.calculate_loss_minimization_score = 0 := by
  unfold GameData.calculate_loss_minimization_score GameData.get_break_even_tiers
    GameData.get_small_win_tiers GameData.get_medium_win_tiers
  rw [h]
  simp

/-- On a game with no tiers the differential is zero. -/
theorem differential_nil (g : GameData) (h : g.prize_tiers = []) :
    g.calculate_differential = 0 := by
  unfold GameData.calculate_differential
  rw [get_top_prize_nil g h, get_bottom_prize_nil g h]

/-- On a game with no tiers the bottom depletion is zero. -/
theorem bottom_depletion_nil (g : GameData) (h : g.prize_tiers = []) :
    g.calculate_bottom_depletion = 0 := by
  unfold GameData.calculate_bottom_depletion
  rw [get_bottom_prize_nil g h]

/-- Clamping below at 0 after capping at 100 is the same as capping at
100 after clamping below at 0. -/
theorem max_min_comm_rat (x : ℚ) : max 0 (min 100 x) = min 100 (max 0 x) := by
  rw [max_min_distrib_left, max_eq_right (by norm_num : (0 : ℚ) ≤ 100)]

/-- The guarded group percent computed by the code (empty-group and
zero-total guards) agrees with the spec's `spec_group_pct`. -/
theorem code_group_pct (ts : List PrizeTier) :
    (if ts.isEmpty then (0 : ℚ)
     else if 0 < (ts.map (fun t => t.total)).sum then
       (((ts.map (fun t => t.remaining)).sum : ℕ) : ℚ) /
         (((ts.map (fun t => t.total)).sum : ℕ) : ℚ) * 100
     else 0) = spec_group_pct ts := by
  unfold spec_group_pct
  by_cases he : ts.isEmpty
  · have hnil : ts = [] := by
      cases ts
      · rfl
      · simp at he
    subst hnil
    simp
  · rw [if_neg he]
    by_cases h : (ts.map (fun t => t.total)).sum = 0
    · rw [if_pos h, if_neg (by omega : ¬0 < (ts.map (fun t => t.total)).sum)]
    · rw [if_neg h, if_pos (Nat.pos_of_ne_zero h)]

/-! ### Claim theorems -/

/-- C8: `percent_remaining` is total and never raises: it equals `0`
when `total = 0`, and equals `remaining/total*100` otherwise, including
when `remaining > total`, in which case the result exceeds `100` rather
than failing. -/
theorem C8_percent_remaining_total (t : PrizeTier) :
    (t.total = 0 → t.percent_remaining = 0) ∧
    (t.total ≠ 0 → t.percent_remaining = ((t.remaining : ℚ) / (t.total : ℚ)) * 100) ∧
    (t.total ≠ 0 → t.total < t.remaining → 100 < t.percent_remaining) := by
  refine ⟨fun h => ?_, fun h => ?_, fun h hlt => ?_⟩
  · rw [PrizeTier.percent_remaining, if_pos h]
  · rw [PrizeTier.percent_remaining, if_neg h]
  · rw [PrizeTier.percent_remaining, if_neg h]
    have ht : (0 : ℚ) < (t.total : ℚ) := by
      exact_mod_cast Nat.pos_of_ne_zero h
    have h1 : (1 : ℚ) < (t.remaining : ℚ) / (t.total : ℚ) :=
      (one_lt_div ht).mpr (by exact_mod_cast hlt)
    nlinarith

/-- Witness for C8 at concrete tiers: a tier with `total = 0` scores
`0` percent, and a tier with `remaining = 3 > total = 2` scores above
`100` percent. -/
theorem C8_witness :
    (PrizeTier.mk 1 0 3).percent_remaining = 0 ∧
    100 < (PrizeTier.mk 1 2 3).percent_remaining :=
  ⟨(C8_percent_remaining_total ⟨1, 0, 3⟩).1 rfl,
   (C8_percent_remaining_total ⟨1, 2, 3⟩).2.2 (by decide) (by decide)⟩

/-- C4: `differential` is the top prize's percent remaining minus the
bottom prize's, `0` when either prize is absent, and it is signed: on
the test vector of a one-dollar tier at 10 of 10 and a million-dollar
tier at 1 of 5 it equals `-80`. -/
theorem C4_differential :
    (∀ (g : GameData) (t b : PrizeTier),
        g.get_top_prize = some t → g.get_bottom_prize = some b →
        g.calculate_differential = t.percent_remaining - b.percent_remaining) ∧
    (∀ g : GameData, g.get_top_prize = none ∨ g.get_bottom_prize = none →
        g.calculate_differential = 0) ∧
    diffGame.calculate_differential = -80 := by
  refine ⟨?_, ?_, ?_⟩
  · intro g t b ht hb
    unfold GameData.calculate_differential
    rw [ht, hb]
  · intro g h
    unfold GameData.calculate_differential
    rcases h with h | h
    · rw [h]
    · rw [h]
      cases g.get_top_prize <;> rfl
  · norm_num [diffGame, GameData.calculate_differential, GameData.get_top_prize,
      GameData.get_bottom_prize, PrizeTier.percent_remaining]

/-- Witness for C4: on the differential test vector, the top prize is
the million-dollar tier, the bottom prize is the one-dollar tier, and
the differential is their percent difference. -/
theorem C4_witness :
    diffGame.calculate_differential =
      (PrizeTier.mk 1000000 5 1).percent_remaining -
        (PrizeTier.mk 1 10 10).percent_remaining :=
  C4_differential.1 diffGame ⟨1000000, 5, 1⟩ ⟨1, 10, 10⟩ (by decide) (by decide)

/-- C6: a game with an empty tier collection scores the neutral value
of every metric accessor and classifies AVOID. -/
theorem C6_empty_game (g : GameData) (h : g.prize_tiers = []) :
    g.calculate_million_health = (0, 0, 0) ∧
    g.calculate_loss_minimization_score = 0 ∧
    g.calculate_differential = 0 ∧
    g.calculate_bottom_depletion = 0 ∧
    g.get_top_prize = none ∧
    g.get_bottom_prize = none ∧
    categorize_game g = "AVOID" := by
  refine ⟨million_health_nil g h, loss_min_nil g h, differential_nil g h,
    bottom_depletion_nil g h, get_top_prize_nil g h, get_bottom_prize_nil g h, ?_⟩
  unfold categorize_game
  rw [million_health_nil g h, differential_nil g h, bottom_depletion_nil g h]
  norm_num

/-- Witness for C6: the concrete empty game classifies AVOID with all
metrics at their neutral value. -/
theorem C6_witness :
    emptyGame.calculate_million_health = (0, 0, 0) ∧
    categorize_game emptyGame = "AVOID" :=
  ⟨(C6_empty_game emptyGame rfl).1, (C6_empty_game emptyGame rfl).2.2.2.2.2.2⟩

/-- A game with no tiers and no start date has composite score 15. -/
theorem composite_score_empty (g : GameData) (parseDays : String → Option ℤ)
    (h1 : g.prize_tiers = []) (h2 : g.start_date = none) :
    calculate_composite_score g parseDays = 15 := by
  unfold calculate_composite_score
  rw [million_health_nil g h1, loss_min_nil g h1, differential_nil g h1]
  unfold GameData.days_since_launch
  rw [h2]
  dsimp only
  have e1 : ((0 : ℚ) + 30) * (100 / 60) = 50 := by norm_num
  rw [e1, min_eq_right (by norm_num : (50 : ℚ) ≤ 100),
    max_eq_right (by norm_num : (0 : ℚ) ≤ 50)]
  norm_num

/-- C10: a game with no tiers and no start date scores exactly 15, not
0: the zero differential renormalizes to 50 (contributing 10) and the
unknown age gives neutral freshness 50 (contributing 5). -/
theorem C10_empty_score (g : GameData) (parseDays : String → Option ℤ)
    (h1 : g.prize_tiers = []) (h2 : g.start_date = none) :
    calculate_composite_score g parseDays = 15 :=
  composite_score_empty g parseDays h1 h2

/-- Witness for C10: the concrete empty game with unparseable dates
scores exactly 15. -/
theorem C10_witness : calculate_composite_score emptyGame noParse = 15 :=
  C10_empty_score emptyGame noParse rfl rfl

/-- C1: the composite score is exactly million percent times 0.40 plus
loss-minimization score times 0.30 plus the clamped renormalized
differential times 0.20 plus the freshness step function times 0.10. -/
theorem C1_composite_formula (g : GameData) (parseDays : String → Option ℤ) :
    calculate_composite_score g parseDays =
      g.calculate_million_health.2.2 * 0.40 +
      g.calculate_loss_minimization_score * 0.30 +
      spec_diff_norm g * 0.20 +
      spec_freshness (g.days_since_launch parseDays) * 0.10 := by
  unfold calculate_composite_score spec_diff_norm spec_freshness
  dsimp only
  rw [max_min_comm_rat]
  norm_num

/-- C3: the loss-minimization score is the weighted blend of the three
group percents (each a summed-remaining over summed-total ratio,
defaulting to 0 on an empty group or zero total), and the test vector
with groups at 80 of 100, 40 of 100 and 10 of 50 scores 56. -/
theorem C3_loss_minimization :
    (∀ g : GameData,
        g.calculate_loss_minimization_score =
          spec_group_pct g.get_break_even_tiers * 0.50 +
          spec_group_pct g.get_small_win_tiers * 0.30 +
          spec_group_pct g.get_medium_win_tiers * 0.20) ∧
    lossGame.calculate_loss_minimization_score = 56 := by
  constructor
  · intro g
    unfold GameData.calculate_loss_minimization_score
    dsimp only
    rw [code_group_pct g.get_break_even_tiers, code_group_pct g.get_small_win_tiers,
      code_group_pct g.get_medium_win_tiers]
    norm_num
  · norm_num [lossGame, GameData.calculate_loss_minimization_score,
      GameData.get_break_even_tiers, GameData.get_small_win_tiers,
      GameData.get_medium_win_tiers, PrizeTier.is_break_even_tier,
      PrizeTier.is_small_win_tier, PrizeTier.is_medium_win_tier, List.filter]

/-- C2: categorization evaluates its rules in order with the first
match winning and returns exactly one of HOT, WATCH, AVOID; on the
precedence test vector with million percent 75, differential -5 and
bottom depletion 50, rule 1 fails on the differential but rule 2 fires,
classifying HOT. -/
theorem C2_categorize :
    (∀ g : GameData,
      (categorize_game g = "HOT" ∨ categorize_game g = "WATCH" ∨
        categorize_game g = "AVOID") ∧
      ((70 ≤ g.calculate_million_health.2.2 ∧ 0 < g.calculate_differential) →
        categorize_game g = "HOT") ∧
      (¬(70 ≤ g.calculate_million_health.2.2 ∧ 0 < g.calculate_differential) →
        g.calculate_bottom_depletion + 10 < g.calculate_million_health.2.2 →
        categorize_game g = "HOT") ∧
      (¬(70 ≤ g.calculate_million_health.2.2 ∧ 0 < g.calculate_differential) →
        ¬(g.calculate_bottom_depletion + 10 < g.calculate_million_health.2.2) →
        g.calculate_million_health.2.2 < 30 →
        categorize_game g = "AVOID") ∧
      (¬(70 ≤ g.calculate_million_health.2.2 ∧ 0 < g.calculate_differential) →
        ¬(g.calculate_bottom_depletion + 10 < g.calculate_million_health.2.2) →
        ¬(g.calculate_million_health.2.2 < 30) →
        g.calculate_million_health.2.2 < g.calculate_bottom_depletion - 15 →
        categorize_game g = "AVOID") ∧
      (¬(70 ≤ g.calculate_million_health.2.2 ∧ 0 < g.calculate_differential) →
        ¬(g.calculate_bottom_depletion + 10 < g.calculate_million_health.2.2) →
        ¬(g.calculate_million_health.2.2 < 30) →
        ¬(g.calculate_million_health.2.2 < g.calculate_bottom_depletion - 15) →
        categorize_game g = "WATCH")) ∧
    (catGame.calculate_million_health.2.2 = 75 ∧
     catGame.calculate_differential = -5 ∧
     catGame.calculate_bottom_depletion = 50 ∧
     categorize_game catGame = "HOT") := by
  constructor
  · intro g
    unfold categorize_game
    dsimp only
    refine ⟨?_, fun h1 => ?_, fun h1 h2 => ?_, fun h1 h2 h3 => ?_,
      fun h1 h2 h3 h4 => ?_, fun h1 h2 h3 h4 => ?_⟩
    · split_ifs <;> simp
    · rw [if_pos h1]
    · rw [if_neg h1, if_pos h2]
    · rw [if_neg h1, if_neg h2, if_pos h3]
    · rw [if_neg h1, if_neg h2, if_neg h3, if_pos h4]
    · rw [if_neg h1, if_neg h2, if_neg h3, if_neg h4]
  · refine ⟨?_, ?_, ?_, ?_⟩
    · norm_num [catGame, GameData.calculate_million_health,
        GameData.get_million_plus_tiers, PrizeTier.is_million_plus, List.filter]
    · norm_num [catGame, GameData.calculate_differential, GameData.get_top_prize,
        GameData.get_bottom_prize, PrizeTier.percent_remaining]
    · norm_num [catGame, GameData.calculate_bottom_depletion,
        GameData.get_bottom_prize, PrizeTier.percent_remaining]
    · norm_num [catGame, categorize_game, GameData.calculate_million_health,
        GameData.calculate_bottom_depletion, GameData.calculate_differential,
        GameData.get_million_plus_tiers, GameData.get_top_prize,
        GameData.get_bottom_prize, PrizeTier.is_million_plus,
        PrizeTier.percent_remaining, List.filter]

/-- Witness for C2: rule 2 applied at the precedence test vector, whose
rule-1 hypothesis fails on the negative differential, classifies the
game HOT. -/
theorem C2_witness : categorize_game catGame = "HOT" := by
  have e1 : catGame.calculate_million_health.2.2 = 75 := by
    norm_num [catGame, GameData.calculate_million_health,
      GameData.get_million_plus_tiers, PrizeTier.is_million_plus, List.filter]
  have e2 : catGame.calculate_differential = -5 := by
    norm_num [catGame, GameData.calculate_differential, GameData.get_top_prize,
      GameData.get_bottom_prize, PrizeTier.percent_remaining]
  have e3 : catGame.calculate_bottom_depletion = 50 := by
    norm_num [catGame, GameData.calculate_bottom_depletion,
      GameData.get_bottom_prize, PrizeTier.percent_remaining]
  exact (C2_categorize.1 catGame).2.2.1
    (by rw [e1, e2]; norm_num) (by rw [e1, e3]; norm_num)

/-- C5 counterexample: the claim fails as stated; at ticket price 100
the break-even range runs from 200 to 1000, so a 500-dollar tier is
both a break-even tier and a small-win tier at once. -/
theorem C5_counterexample :
    (0 : ℚ) ≤ 100 ∧
    (PrizeTier.mk 500 1 1).is_break_even_tier 100 = true ∧
    (PrizeTier.mk 500 1 1).is_small_win_tier = true := by
  refine ⟨by norm_num, ?_, ?_⟩ <;>
    simp [PrizeTier.is_break_even_tier, PrizeTier.is_small_win_tier] <;> norm_num

/-- C5 amended: the small-win and medium-win ranges are disjoint for
every tier; the break-even range is disjoint from both for every
non-negative ticket price whose tenfold is below 500 (price under 50
dollars), though for larger prices it can overlap them. -/
theorem C5_disjoint_amended :
    (∀ t : PrizeTier,
      ¬(t.is_small_win_tier = true ∧ t.is_medium_win_tier = true)) ∧
    (∀ (t : PrizeTier) (p : ℚ), 0 ≤ p → p * 10 < 500 →
      ¬(t.is_break_even_tier p = true ∧ t.is_small_win_tier = true) ∧
      ¬(t.is_break_even_tier p = true ∧ t.is_medium_win_tier = true)) := by
  constructor
  · intro t
    simp only [PrizeTier.is_small_win_tier, PrizeTier.is_medium_win_tier,
      decide_eq_true_eq]
    rintro ⟨⟨-, h1⟩, ⟨h2, -⟩⟩
    linarith
  · intro t p _ hs
    simp only [PrizeTier.is_break_even_tier, PrizeTier.is_small_win_tier,
      PrizeTier.is_medium_win_tier, decide_eq_true_eq]
    constructor
    · rintro ⟨⟨-, h1⟩, ⟨h2, -⟩⟩
      linarith
    · rintro ⟨⟨-, h1⟩, ⟨h2, -⟩⟩
      linarith

/-- Witness for C5 amended, at a 600-dollar tier and ticket price 5:
the tier cannot be both break-even and small-win. -/
theorem C5_witness :
    (0 : ℚ) ≤ 5 ∧ (5 : ℚ) * 10 < 500 ∧
    ¬((PrizeTier.mk 600 1 1).is_break_even_tier 5 = true ∧
      (PrizeTier.mk 600 1 1).is_small_win_tier = true) :=
  ⟨by norm_num, by norm_num,
   (C5_disjoint_amended.2 ⟨600, 1, 1⟩ 5 (by norm_num) (by norm_num)).1⟩

/-- The strict-greater fold that models Python `max` with a key picks
the first element of `a :: l` with maximal key: everything strictly
before the pick has a strictly smaller value and nothing beats it. -/
theorem foldl_max_first (l : List PrizeTier) :
    ∀ a : PrizeTier,
      ∃ l1 l2,
        a :: l = l1 ++ (l.foldl (fun best x => if best.value < x.value then x else best) a) :: l2 ∧
        (∀ t ∈ l1, t.value <
          (l.foldl (fun best x => if best.value < x.value then x else best) a).value) ∧
        (∀ t ∈ a :: l, t.value ≤
          (l.foldl (fun best x => if best.value < x.value then x else best) a).value) := by
  induction l with
  | nil =>
    intro a
    exact ⟨[], [], rfl, by simp, by simp⟩
  | cons x l ih =>
    intro a
    rw [List.foldl_cons]
    by_cases h : a.value < x.value
    · rw [if_pos h]
      obtain ⟨l1, l2, hsplit, hlt, hle⟩ := ih x
      have hx : x.value ≤ (l.foldl (fun best x => if best.value < x.value then x else best) x).value :=
        hle x (List.mem_cons_self x l)
      refine ⟨a :: l1, l2, ?_, ?_, ?_⟩
      · rw [List.cons_append, ← hsplit]
      · intro t ht
        rcases List.mem_cons.mp ht with rfl | ht
        · exact lt_of_lt_of_le h hx
        · exact hlt t ht
      · intro t ht
        rcases List.mem_cons.mp ht with rfl | ht
        · exact le_of_lt (lt_of_lt_of_le h hx)
        · exact hle t ht
    · rw [if_neg h]
      obtain ⟨l1, l2, hsplit, hlt, hle⟩ := ih a
      rcases l1 with _ | ⟨b, l1⟩
      · simp only [List.nil_append] at hsplit
        have ha : (l.foldl (fun best x => if best.value < x.value then x else best) a) = a :=
          (List.cons.injEq _ _ _ _ ▸ hsplit).1.symm
        refine ⟨[], x :: l, ?_, by simp, ?_⟩
        · rw [List.nil_append, ha]
        · intro t ht
          rw [ha]
          rcases List.mem_cons.mp ht with rfl | ht
          · exact le_refl _
          · rcases List.mem_cons.mp ht with rfl | ht
            · exact le_of_not_lt h
            · have := hle t (List.mem_cons_of_mem a ht)
              rw [ha] at this
              exact this
      · rw [List.cons_append] at hsplit
        obtain ⟨hab, hl⟩ := List.cons_eq_cons.mp hsplit
        have hblt : b.value <
            (l.foldl (fun best x => if best.value < x.value then x else best) a).value :=
          hlt b (List.mem_cons_self b l1)
        refine ⟨a :: x :: l1, l2, ?_, ?_, ?_⟩
        · rw [List.cons_append, List.cons_append, ← hl]
        · intro t ht
          rcases List.mem_cons.mp ht with rfl | ht
          · exact lt_of_le_of_lt (le_of_eq (by rw [hab])) hblt
          · rcases List.mem_cons.mp ht with rfl | ht
            · exact lt_of_le_of_lt (le_of_not_lt h)
                (lt_of_le_of_lt (le_of_eq (by rw [hab])) hblt)
            · exact hlt t (List.mem_cons_of_mem b ht)
        · intro t ht
          rcases List.mem_cons.mp ht with rfl | ht
          · exact hle t (List.mem_cons_self t l)
          · rcases List.mem_cons.mp ht with rfl | ht
            · exact le_trans (le_of_not_lt h) (hle a (List.mem_cons_self a l))
            · exact hle t (List.mem_cons_of_mem a ht)

/-- The strict-less fold that models Python `min` with a key picks the
first element of `a :: l` with minimal key. -/
theorem foldl_min_first (l : List PrizeTier) :
    ∀ a : PrizeTier,
      ∃ l1 l2,
        a :: l = l1 ++ (l.foldl (fun best x => if x.value < best.value then x else best) a) :: l2 ∧
        (∀ t ∈ l1,
          (l.foldl (fun best x => if x.value < best.value then x else best) a).value < t.value) ∧
        (∀ t ∈ a :: l,
          (l.foldl (fun best x => if x.value < best.value then x else best) a).value ≤ t.value) := by
  induction l with
  | nil =>
    intro a
    exact ⟨[], [], rfl, by simp, by simp⟩
  | cons x l ih =>
    intro a
    rw [List.foldl_cons]
    by_cases h : x.value < a.value
    · rw [if_pos h]
      obtain ⟨l1, l2, hsplit, hlt, hle⟩ := ih x
      have hx : (l.foldl (fun best x => if x.value < best.value then x else best) x).value ≤ x.value :=
        hle x (List.mem_cons_self x l)
      refine ⟨a :: l1, l2, ?_, ?_, ?_⟩
      · rw [List.cons_append, ← hsplit]
      · intro t ht
        rcases List.mem_cons.mp ht with rfl | ht
        · exact lt_of_le_of_lt hx h
        · exact hlt t ht
      · intro t ht
        rcases List.mem_cons.mp ht with rfl | ht
        · exact le_of_lt (lt_of_le_of_lt hx h)
        · exact hle t ht
    · rw [if_neg h]
      obtain ⟨l1, l2, hsplit, hlt, hle⟩ := ih a
      rcases l1 with _ | ⟨b, l1⟩
      · simp only [List.nil_append] at hsplit
        have ha : (l.foldl (fun best x => if x.value < best.value then x else best) a) = a :=
          (List.cons.injEq _ _ _ _ ▸ hsplit).1.symm
        refine ⟨[], x :: l, ?_, by simp, ?_⟩
        · rw [List.nil_append, ha]
        · intro t ht
          rw [ha]
          rcases List.mem_cons.mp ht with rfl | ht
          · exact le_refl _
          · rcases List.mem_cons.mp ht with rfl | ht
            · exact le_of_not_lt h
            · have := hle t (List.mem_cons_of_mem a ht)
              rw [ha] at this
              exact this
      · rw [List.cons_append] at hsplit
        obtain ⟨hab, hl⟩ := List.cons_eq_cons.mp hsplit
        have hblt : (l.foldl (fun best x => if x.value < best.value then x else best) a).value <
            b.value :=
          hlt b (List.mem_cons_self b l1)
        refine ⟨a :: x :: l1, l2, ?_, ?_, ?_⟩
        · rw [List.cons_append, List.cons_append, ← hl]
        · intro t ht
          rcases List.mem_cons.mp ht with rfl | ht
          · exact lt_of_lt_of_le hblt (le_of_eq (by rw [hab]))
          · rcases List.mem_cons.mp ht with rfl | ht
            · exact lt_of_lt_of_le (lt_of_lt_of_le hblt (le_of_eq (by rw [hab])))
                (le_of_not_lt h)
            · exact hlt t (List.mem_cons_of_mem b ht)
        · intro t ht
          rcases List.mem_cons.mp ht with rfl | ht
          · exact hle t (List.mem_cons_self t l)
          · rcases List.mem_cons.mp ht with rfl | ht
            · exact le_trans (hle a (List.mem_cons_self a l)) (le_of_not_lt h)
            · exact hle t (List.mem_cons_of_mem a ht)

/-- C9: on a non-empty tier collection, the top prize is the first tier
in collection order whose value is maximal (everything earlier is
strictly smaller, nothing anywhere is larger), and the bottom prize is
the first tier whose value is minimal. -/
theorem C9_top_bottom_first (g : GameData) (h : g.prize_tiers ≠ []) :
    (∃ t l1 l2, g.get_top_prize = some t ∧ g.prize_tiers = l1 ++ t :: l2 ∧
      (∀ u ∈ l1, u.value < t.value) ∧ (∀ u ∈ g.prize_tiers, u.value ≤ t.value)) ∧
    (∃ b l1 l2, g.get_bottom_prize = some b ∧ g.prize_tiers = l1 ++ b :: l2 ∧
      (∀ u ∈ l1, b.value < u.value) ∧ (∀ u ∈ g.prize_tiers, b.value ≤ u.value)) := by
  rcases hl : g.prize_tiers with _ | ⟨a, l⟩
  · exact absurd hl h
  constructor
  · obtain ⟨l1, l2, hsplit, hlt, hle⟩ := foldl_max_first l a
    refine ⟨_, l1, l2, ?_, ?_, hlt, ?_⟩
    · unfold GameData.get_top_prize
      rw [hl]
    · exact hsplit
    · intro u hu
      exact hle u hu
  · obtain ⟨l1, l2, hsplit, hlt, hle⟩ := foldl_min_first l a
    refine ⟨_, l1, l2, ?_, ?_, hlt, ?_⟩
    · unfold GameData.get_bottom_prize
      rw [hl]
    · exact hsplit
    · intro u hu
      exact hle u hu

/-- Witness for C9: applying the characterization to the tie game,
whose maximal value 9 and minimal value 7 each occur twice. -/
theorem C9_witness :
    tieGame.prize_tiers ≠ [] ∧
    (∃ t l1 l2, tieGame.get_top_prize = some t ∧ tieGame.prize_tiers = l1 ++ t :: l2 ∧
      (∀ u ∈ l1, u.value < t.value) ∧ (∀ u ∈ tieGame.prize_tiers, u.value ≤ t.value)) ∧
    (∃ b l1 l2, tieGame.get_bottom_prize = some b ∧ tieGame.prize_tiers = l1 ++ b :: l2 ∧
      (∀ u ∈ l1, b.value < u.value) ∧ (∀ u ∈ tieGame.prize_tiers, b.value ≤ u.value)) :=
  ⟨by decide, (C9_top_bottom_first tieGame (by decide)).1,
   (C9_top_bottom_first tieGame (by decide)).2⟩

/-- The descending-score comparison is transitive. -/
theorem score_ge_trans (a b c : GameData × ℚ × String) :
    score_ge a b = true → score_ge b c = true → score_ge a c = true := by
  simp only [score_ge, decide_eq_true_eq]
  exact fun h1 h2 => le_trans h2 h1

/-- The descending-score comparison is total. -/
theorem score_ge_total (a b : GameData × ℚ × String) :
    (score_ge a b || score_ge b a) = true := by
  simp only [score_ge, Bool.or_eq_true, decide_eq_true_eq]
  exact le_total b.2.1 a.2.1

/-- C7: the ranking step permutes the scored collection into
descending composite-score order; it is stable (any sublist of entries
with pairwise equal scores survives in its original relative order);
sorting the already-sorted output again returns it unchanged; and each
per-category sub-collection preserves the descending-score order. -/
theorem C7_ranking (games : List GameData) (parseDays : String → Option ℤ) :
    (rank_games games parseDays).Perm (scored_games games parseDays) ∧
    (rank_games games parseDays).Pairwise (fun x y => y.2.1 ≤ x.2.1) ∧
    (∀ c : List (GameData × ℚ × String),
      c.Sublist (scored_games games parseDays) →
      c.Pairwise (fun x y => x.2.1 = y.2.1) →
      c.Sublist (rank_games games parseDays)) ∧
    (rank_games games parseDays).mergeSort score_ge = rank_games games parseDays ∧
    (hot_games games parseDays).Pairwise (fun x y => y.2 ≤ x.2) ∧
    (watch_games games parseDays).Pairwise (fun x y => y.2 ≤ x.2) ∧
    (avoid_games games parseDays).Pairwise (fun x y => y.2 ≤ x.2) := by
  have hsorted : (rank_games games parseDays).Pairwise
      (fun x y => score_ge x y = true) :=
    List.sorted_mergeSort score_ge_trans score_ge_total (scored_games games parseDays)
  have hsorted' : (rank_games games parseDays).Pairwise (fun x y => y.2.1 ≤ x.2.1) :=
    hsorted.imp (fun h => by
      have := of_decide_eq_true h
      exact this)
  refine ⟨List.mergeSort_perm (scored_games games parseDays) score_ge, hsorted',
    ?_, ?_, ?_, ?_, ?_⟩
  · intro c hsub heq
    refine List.sublist_mergeSort score_ge_trans score_ge_total ?_ hsub
    exact heq.imp (fun h => decide_eq_true (le_of_eq h.symm))
  · exact List.mergeSort_of_sorted hsorted
  · unfold hot_games
    rw [List.pairwise_map]
    exact List.Pairwise.sublist (List.filter_sublist _) hsorted'
  · unfold watch_games
    rw [List.pairwise_map]
    exact List.Pairwise.sublist (List.filter_sublist _) hsorted'
  · unfold avoid_games
    rw [List.pairwise_map]
    exact List.Pairwise.sublist (List.filter_sublist _) hsorted'

/-- Witness for C7: on the two-game collection whose entries tie at
score 15, the scored list itself is an equal-score sublist and so
survives the ranking in its original order. -/
theorem C7_witness :
    (scored_games rankPair noParse).Sublist (rank_games rankPair noParse) := by
  have e1 : calculate_composite_score emptyGame noParse = 15 :=
    composite_score_empty emptyGame noParse rfl rfl
  have e2 : calculate_composite_score emptyGame2 noParse = 15 :=
    composite_score_empty emptyGame2 noParse rfl rfl
  have hpw : (scored_games rankPair noParse).Pairwise (fun x y => x.2.1 = y.2.1) := by
    simp only [rankPair, scored_games, List.map_cons, List.map_nil]
    refine List.pairwise_cons.mpr ⟨?_, List.pairwise_singleton _ _⟩
    intro y hy
    rcases List.mem_singleton.mp hy with rfl
    dsimp only
    rw [e1, e2]
  exact (C7_ranking rankPair noParse).2.2.1 (scored_games rankPair noParse)
    (List.Sublist.refl _) hpw

end NCLottery
